import Mathlib

/-!
Shallow embedding of the Sentinel plant-disease detection core
(dual-model inference pipeline) and proofs about it.

Embedded source files:
* `src/sentinel-backend/src/controllers/detectionController.js`
  (label map, recommendation tables, `analyzeImage` / `analyzeStream`
  result construction and primary selection, file cleanup paths);
* `src/sentinel-backend/src/utils/modelInitialization.js`
  (`MODEL_CONFIG`, `checkModelFiles`, `loadModelWithRetry`, `getModel`);
* `src/unnamed/part_003` = `utils/imageProcessor.js`
  (`processImageBuffer`, `checkImageQuality`).

Conventions: JavaScript numbers used as confidences are embedded as `ℚ`
(their comparisons are exact order comparisons on the stored values);
byte counts, pixel dimensions and millisecond durations as `ℕ`;
class indices as `ℤ` (JavaScript `indexOf` can return `-1`).
External effects (filesystem, tensorflow, sharp) are embedded as
explicit environment records describing their outcomes.
-/

namespace Sentinel

/-- The fixed class-index → disease-name table `labelMap` of
`detectionController.js` (object with numeric keys 0–8); indexing an
absent key gives `none` (JavaScript `undefined`). -/
def labelMap (i : ℤ) : Option String :=
  if i = 0 then some "Early Blight"
  else if i = 1 then some "Healthy"
  else if i = 2 then some "Late Blight"
  else if i = 3 then some "Leaf Miner"
  else if i = 4 then some "Leaf Mold"
  else if i = 5 then some "Mosaic Virus"
  else if i = 6 then some "Septoria"
  else if i = 7 then some "Spider Mites"
  else if i = 8 then some "Yellow Leaf Curl Virus"
  else none

/-- The lookup `labelMap[classIndex] || "Unknown"` used by
`analyzeImage` and `analyzeStream`: every disease name in the table is
a non-empty (truthy) string, so `||` fires exactly on `undefined`. -/
def getDiseaseLabel (i : ℤ) : String :=
  (labelMap i).getD "Unknown"

/-- `getRecommendations` of `detectionController.js`: fixed list per
disease label, with a generic fallback for unknown labels. -/
def getRecommendations (diseaseName : String) : List String :=
  if diseaseName = "Early Blight" then
    ["Remove infected leaves immediately",
     "Apply copper-based fungicides",
     "Maintain proper plant spacing for airflow",
     "Avoid overhead watering to prevent spore spread"]
  else if diseaseName = "Late Blight" then
    ["Remove and destroy all infected plant material",
     "Apply fungicides preventively in humid conditions",
     "Ensure good air circulation around plants",
     "Use resistant varieties in future plantings"]
  else if diseaseName = "Leaf Miner" then
    ["Remove and destroy affected leaves",
     "Use yellow sticky traps to monitor and catch adults",
     "Apply neem oil or insecticidal soap",
     "Introduce natural predators like parasitic wasps"]
  else if diseaseName = "Leaf Mold" then
    ["Improve air circulation around plants",
     "Reduce humidity in growing environment",
     "Apply fungicides at first sign of infection",
     "Avoid overhead watering to keep foliage dry"]
  else if diseaseName = "Mosaic Virus" then
    ["Remove and destroy infected plants completely",
     "Control aphids and other insects that spread the virus",
     "Wash hands and tools after handling infected plants",
     "Plant resistant varieties in future"]
  else if diseaseName = "Septoria" then
    ["Remove infected leaves to prevent spread",
     "Apply fungicide at first sign of infection",
     "Maintain proper plant spacing",
     "Avoid overhead watering to keep foliage dry"]
  else if diseaseName = "Spider Mites" then
    ["Spray plants with strong stream of water to dislodge mites",
     "Apply insecticidal soap or neem oil to affected areas",
     "Increase humidity around plants",
     "Introduce predatory mites as biological control"]
  else if diseaseName = "Yellow Leaf Curl Virus" then
    ["Remove and destroy all infected plants",
     "Control whitefly populations with sticky traps",
     "Use reflective mulches to repel whiteflies",
     "Plant resistant varieties in future"]
  else if diseaseName = "Healthy" then
    ["Continue regular maintenance",
     "Monitor plants regularly for early signs of disease",
     "Maintain proper watering and fertilization schedule",
     "Ensure good air circulation around plants"]
  else
    ["Consult with a plant pathologist for specific recommendations",
     "Monitor the plant closely for changes in symptoms",
     "Ensure proper growing conditions (light, water, nutrients)"]

/-- JavaScript `Math.max(...data)`: `none` for the empty spread
(`Math.max()` is `-Infinity`). -/
def jsMax : List ℚ → Option ℚ
  | [] => none
  | x :: xs => some (xs.foldl max x)

/-- `data.indexOf(Math.max(...data))` of the controller: the index of
the first occurrence of the maximum, `-1` when `data` is empty
(`[].indexOf(-Infinity)` is `-1`). -/
def classIndexOf (data : List ℚ) : ℤ :=
  match jsMax data with
  | none => -1
  | some m => (data.indexOf m : ℤ)

/-- `data[i]` for the in-range reads `data[classIndex]` performed by the
controller (out-of-range reads, which the controller only performs on an
empty output vector, are embedded as `0`). -/
def valueAt (data : List ℚ) (i : ℤ) : ℚ :=
  if i < 0 then 0 else data.getD i.toNat 0

/-- One model's analysis block as built by `analyzeImage` /
`analyzeStream`: disease label, raw confidence, recommendation list. -/
structure ModelAnalysis where
  disease : String
  confidence : ℚ
  recommendations : List String
  deriving DecidableEq, Repr

/-- The primary `analysis` block: a `ModelAnalysis` plus the `model`
tag naming which model was selected. -/
structure PrimaryAnalysis extends ModelAnalysis where
  model : String
  deriving DecidableEq, Repr

/-- The `results` object of `analyzeImage` (same shape as the stream
response of `analyzeStream`): both per-model blocks, the selected
primary, and the processing time. -/
structure EnsembleResults where
  yolov5Analysis : ModelAnalysis
  yolov7Analysis : ModelAnalysis
  analysis : PrimaryAnalysis
  processingTime : ℕ
  deriving DecidableEq, Repr

/-- The per-model post-processing of `analyzeImage` / `analyzeStream`
(lines 229–243): class index = argmax of the output vector, confidence
= the value at that index, label via `labelMap` with fallback
`"Unknown"`, recommendations from the fixed table. -/
def analyzeOutput (data : List ℚ) : ModelAnalysis :=
  let idx := classIndexOf data
  let conf := valueAt data idx
  let name := getDiseaseLabel idx
  { disease := name
    confidence := conf
    recommendations := getRecommendations name }

/-- The `results` construction of `analyzeImage` (lines 245–273) and
the identical block of `analyzeStream` (lines 363–393): primary is
YOLOv5's block exactly when `yolov5Confidence > yolov7Confidence`,
otherwise (including exact ties) YOLOv7's block. -/
def mkEnsemble (yolov5Data yolov7Data : List ℚ) (elapsedMs : ℕ) :
    EnsembleResults :=
  let a5 := analyzeOutput yolov5Data
  let a7 := analyzeOutput yolov7Data
  { yolov5Analysis := a5
    yolov7Analysis := a7
    analysis :=
      if a7.confidence < a5.confidence then
        { toModelAnalysis := a5, model := "YOLOv5" }
      else
        { toModelAnalysis := a7, model := "YOLOv7" }
    processingTime := elapsedMs }

/-- `checkImageQuality` of `imageProcessor.js` (`src/unnamed/part_003`,
lines 120–155) on a readable image file: file-size check first
(`stats.size < minSize` throws), then the dimension check
(`metadata.width < minWidth || metadata.height < minHeight` throws);
both thrown messages start with "Image" and are rethrown unchanged. -/
def checkImageQuality (fileSize imgWidth imgHeight : ℕ)
    (minSize minWidth minHeight : ℕ) : Except String Bool :=
  if fileSize < minSize then
    .error ("Image file too small (" ++ toString fileSize ++
      " bytes). Minimum size: " ++ toString minSize ++ " bytes")
  else if imgWidth < minWidth ∨ imgHeight < minHeight then
    .error ("Image dimensions too small (" ++ toString imgWidth ++ "x" ++
      toString imgHeight ++ "). Minimum: " ++ toString minWidth ++ "x" ++
      toString minHeight)
  else
    .ok true

/-- Environment of one `analyzeImage` request: the outcomes of the
external effects the controller performs, in the order it performs
them. A model's forward pass is `.ok data` (the output vector) or
`.error msg` (the rejection of its `predict` promise). -/
structure RequestEnv where
  hasFile : Bool
  fileExists : Bool
  fileSize : ℕ
  imgWidth : ℕ
  imgHeight : ℕ
  modelsLoadOk : Bool
  predict5 : Except String (List ℚ)
  predict7 : Except String (List ℚ)
  elapsedMs : ℕ

/-- The JSON envelope the controller returns: `ok status results` for
`createResponse(true, …)`, `fail status message` for
`createResponse(false, null, message, error)`. -/
inductive Response where
  | ok (status : ℕ) (results : EnsembleResults)
  | fail (status : ℕ) (message : String)
  deriving DecidableEq, Repr

/-- Request-scoped resource accounting for one `analyzeImage` run:
paths pushed onto `filesToCleanup`, paths actually passed to
`cleanupFiles`, tensors created minus tensors disposed
(the `tf.dispose([tensor, yolov5Prediction, yolov7Prediction])` call
is commented out in the source, so no tensor is ever disposed),
whether `modelManager.get*Model()` was reached, and whether
`predict` was invoked. -/
structure ResourceTrace where
  filesRegistered : ℕ
  filesCleaned : ℕ
  tensorsAlive : ℕ
  modelsRequested : Bool
  inferenceStarted : Bool
  deriving DecidableEq, Repr

/-- `analyzeImage` of `detectionController.js` (lines 153–301), with
every external effect read off the environment. Control flow in
source order: missing upload → 400; `fs.access` failure → 404 (no
cleanup); `checkImageQuality` throw → 400 "Image quality check
failed" (no cleanup); then models are obtained and the tensor built;
`Promise.all` of the two `predict` calls rejects if either rejects,
landing in the catch block → `cleanupFiles` → 500 "Error processing
image"; on success `cleanupFiles` runs and 200 is returned. Tensor
counts: the preprocessed input tensor plus one output tensor per
settled successful prediction; none is ever disposed. -/
def analyzeImage (env : RequestEnv) : Response × ResourceTrace :=
  if ¬env.hasFile then
    (.fail 400 "No image file uploaded",
     ⟨0, 0, 0, false, false⟩)
  else if ¬env.fileExists then
    (.fail 404 "Upload file not found",
     ⟨2, 0, 0, false, false⟩)
  else
    match checkImageQuality env.fileSize env.imgWidth env.imgHeight
        (10 * 1024) 224 224 with
    | .error _ =>
        (.fail 400 "Image quality check failed",
         ⟨2, 0, 0, false, false⟩)
    | .ok _ =>
        if ¬env.modelsLoadOk then
          (.fail 500 "Error processing image",
           ⟨2, 2, 0, true, false⟩)
        else
          match env.predict5, env.predict7 with
          | .ok d5, .ok d7 =>
              (.ok 200 (mkEnsemble d5 d7 env.elapsedMs),
               ⟨2, 2, 3, true, true⟩)
          | .ok _, .error _ =>
              (.fail 500 "Error processing image",
               ⟨2, 2, 2, true, true⟩)
          | .error _, .ok _ =>
              (.fail 500 "Error processing image",
               ⟨2, 2, 2, true, true⟩)
          | .error _, .error _ =>
              (.fail 500 "Error processing image",
               ⟨2, 2, 1, true, true⟩)

/-- One entry of `MODEL_CONFIG` in `modelInitialization.js`. -/
structure ModelConfig where
  modelPath : String
  warmupShape : List ℕ
  timeout : ℕ
  retryAttempts : ℕ
  retryDelay : ℕ
  deriving DecidableEq, Repr

/-- `MODEL_CONFIG` of `modelInitialization.js` (lines 12–27): two
models, identical policy numbers. -/
def MODEL_CONFIG (name : String) : Option ModelConfig :=
  if name = "yolov5" then
    some { modelPath := "../models/yolov5/yolov5_model.json"
           warmupShape := [1, 640, 640, 3]
           timeout := 60000
           retryAttempts := 3
           retryDelay := 5000 }
  else if name = "yolov7" then
    some { modelPath := "../models/yolov7/yolov7_model.json"
           warmupShape := [1, 640, 640, 3]
           timeout := 60000
           retryAttempts := 3
           retryDelay := 5000 }
  else none

/-- Outcome of one `Promise.race([tf.loadGraphModel(url), timeoutPromise])`
attempt: the load resolves in time, the load rejects with a message, or
the timeout promise rejects first. -/
inductive AttemptOutcome where
  | success
  | failure (msg : String)
  | timeout
  deriving DecidableEq, Repr

/-- The error (if any) an attempt produces: a timed-out attempt yields
the timeout promise's rejection
`"Model loading timed out after " ++ timeout ++ "ms"` and is handled by
the same catch as an ordinary load failure. -/
def attemptError (cfg : ModelConfig) : AttemptOutcome → Option String
  | .success => none
  | .failure msg => some msg
  | .timeout =>
      some ("Model loading timed out after " ++ toString cfg.timeout ++ "ms")

/-- Environment for one `loadModelWithRetry` run: whether
`fs.access(modelPath)` succeeds (`checkModelFiles`), and the outcome of
the k-th load attempt (1-based, matching the source's loop counter). -/
structure LoadEnv where
  filesExist : Bool
  outcome : ℕ → AttemptOutcome

/-- Observable trace of a `loadModelWithRetry` run: how many load
attempts were started, how many `retryDelay` waits were performed, and
the final result (a cached ready model, or the thrown error message). -/
structure LoadTrace where
  attempts : ℕ
  delays : ℕ
  result : Except String Unit
  deriving Repr

/-- The aggregated error thrown after the retry loop exhausts
(`modelInitialization.js` lines 190–195): names the model
(uppercased) and appends the last underlying error's message. -/
def aggregateMsg (name : String) (cfg : ModelConfig) (lastErr : String) :
    String :=
  "Failed to load " ++ name.toUpper ++ " model after " ++
    toString cfg.retryAttempts ++ " attempts: " ++ lastErr

/-- The error `checkModelFiles` throws when `fs.access` rejects
(`modelInitialization.js` lines 81–83). -/
def filesMissingMsg (name : String) : String :=
  name.toUpper ++ " model file not found. See console for details."

/-- The `for (attempt = 1; attempt <= retryAttempts; attempt++)` loop of
`loadModelWithRetry` (lines 137–188): `fuel` is the number of attempts
still allowed, `idx` the 1-based number of the next attempt, `aDone` /
`dDone` the attempts started and delay waits performed so far, `lastErr`
the last caught error. A successful attempt warms up, caches and
returns; a failed attempt records the error and, only when further
attempts remain, waits `retryDelay`. -/
def retryLoop (name : String) (cfg : ModelConfig)
    (outcome : ℕ → AttemptOutcome) :
    ℕ → ℕ → ℕ → ℕ → String → LoadTrace
  | 0, _, aDone, dDone, lastErr =>
      ⟨aDone, dDone, .error (aggregateMsg name cfg lastErr)⟩
  | fuel + 1, idx, aDone, dDone, _ =>
      match attemptError cfg (outcome idx) with
      | none => ⟨aDone + 1, dDone, .ok ()⟩
      | some e =>
          if fuel = 0 then
            retryLoop name cfg outcome 0 (idx + 1) (aDone + 1) dDone e
          else
            retryLoop name cfg outcome fuel (idx + 1) (aDone + 1)
              (dDone + 1) e

/-- `loadModelWithRetry` (lines 121–196): `checkModelFiles` first —
an unknown model or missing files throws before any attempt is made —
then the bounded retry loop. -/
def loadModelWithRetry (name : String) (env : LoadEnv) : LoadTrace :=
  match MODEL_CONFIG name with
  | none => ⟨0, 0, .error ("Unknown model: " ++ name)⟩
  | some cfg =>
      if env.filesExist then
        retryLoop name cfg env.outcome cfg.retryAttempts 1 0 0 ""
      else
        ⟨0, 0, .error (filesMissingMsg name)⟩

/-- `getModel` (lines 203–216): name validation, synchronous cache
check, else `loadModelWithRetry`. `cached` is whether
`modelCache.has(name)` holds at entry. -/
def getModel (name : String) (cached : Bool) (env : LoadEnv) : LoadTrace :=
  match MODEL_CONFIG name with
  | none => ⟨0, 0, .error ("Unknown model: " ++ name)⟩
  | some _ =>
      if cached then ⟨0, 0, .ok ()⟩
      else loadModelWithRetry name env

/-- Concurrency model for `getModel` on one fixed model name. A caller
runs two steps separated by at least one await point (the `await`s
inside `loadModelWithRetry` before `modelCache.set` on line 166):
`.check` is the synchronous `modelCache.has` test — a hit finishes the
caller, a miss starts that caller's own load — and `.finishLoad`
completes one in-flight load, populating the cache. There is no
in-flight-promise table in the source: nothing records that a load has
started until `modelCache.set` runs at its end. -/
inductive RegAction where
  | check
  | finishLoad
  deriving DecidableEq, Repr

/-- Scheduler state for `getModel` concurrency: whether the cache holds
the model, how many underlying loads were started, and how many callers
are before their check, awaiting their own load, or done. -/
structure RegState where
  cached : Bool
  loads : ℕ
  nStart : ℕ
  nLoading : ℕ
  nDone : ℕ
  deriving DecidableEq, Repr

/-- One scheduler step of the `getModel` concurrency model. Actions
whose precondition fails (no caller in the respective phase) are
no-ops. -/
def regStep (s : RegState) : RegAction → RegState
  | .check =>
      if s.nStart = 0 then s
      else if s.cached then
        { s with nStart := s.nStart - 1, nDone := s.nDone + 1 }
      else
        { s with loads := s.loads + 1, nStart := s.nStart - 1,
                 nLoading := s.nLoading + 1 }
  | .finishLoad =>
      if s.nLoading = 0 then s
      else
        { s with cached := true, nLoading := s.nLoading - 1,
                 nDone := s.nDone + 1 }

/-- `n` concurrent callers of `getModel` for one uncached model name:
initial scheduler state. -/
def regInit (n : ℕ) : RegState :=
  ⟨false, 0, n, 0, 0⟩

/-- Run a schedule (interleaving) of caller steps. -/
def regRun (n : ℕ) (schedule : List RegAction) : RegState :=
  schedule.foldl regStep (regInit n)

/-- A decoded raster image: dimensions plus an 8-bit value per
(row, column, channel). `Fin 256` is exactly the uint8 channel range a
decoded image buffer carries. -/
structure RawImage where
  width : ℕ
  height : ℕ
  pixel : ℕ → ℕ → Fin 3 → Fin 256

/-- The scaled dimensions of sharp's `fit: "contain"` into a `t × t`
square: scale factor `t / max(width, height)` preserves the aspect
ratio, so the longer side becomes `t` and the shorter side scales
proportionally (integer division embeds the rounding). -/
def scaledDims (w h t : ℕ) : ℕ × ℕ :=
  if h ≤ w then (t, h * t / w) else (w * t / h, t)

/-- Model of `sharp(buffer).resize(t, t, { fit: "contain", background:
{ r: 0, g: 0, b: 0 } })` as invoked by `processImageBuffer`
(`src/unnamed/part_003` lines 55–60): the source image is scaled
aspect-preservingly onto a centred region of a `t × t` canvas (sampling
embedded as nearest-neighbour; sharp's resampling kernel likewise
produces uint8 output), and every pixel outside that region is black
(value 0 on all three channels). -/
def containFit (img : RawImage) (t : ℕ) : RawImage :=
  let sw := (scaledDims img.width img.height t).1
  let sh := (scaledDims img.width img.height t).2
  let ox := (t - sw) / 2
  let oy := (t - sh) / 2
  { width := t
    height := t
    pixel := fun y x c =>
      if ox ≤ x ∧ x < ox + sw ∧ oy ≤ y ∧ y < oy + sh then
        img.pixel ((y - oy) * img.height / sh) ((x - ox) * img.width / sw) c
      else 0 }

/-- A tensor as `processImageBuffer` returns it: a shape list and the
value at each (batch, row, column, channel) index. -/
structure BatchedTensor where
  shape : List ℕ
  value : ℕ → ℕ → ℕ → ℕ → ℚ

/-- `processImageBuffer` of `imageProcessor.js` (`src/unnamed/part_003`
lines 50–80) on a decodable buffer: sharp contain-resize to
`width × height` (both default 640), `tf.node.decodeImage(…, 3)` (3
channels), `div(tf.scalar(255.0))`, `expandDims(0)`; the decoded
intermediate is disposed and the batched tensor returned. -/
def processImageBuffer (img : RawImage) (t : ℕ) : BatchedTensor :=
  let resized := containFit img t
  { shape := [1, resized.height, resized.width, 3]
    value := fun _ y x c =>
      if hc : c < 3 then
        ((resized.pixel y x ⟨c, hc⟩ : ℕ) : ℚ) / 255
      else 0 }

/-- The default of `const { width = 640, height = 640 } = options`. -/
def defaultTargetSize : ℕ := 640

/-- `processImageBuffer(buffer)` with no options, as
`processStreamFrame` calls it. -/
def processImageBufferDefault (img : RawImage) : BatchedTensor :=
  processImageBuffer img defaultTargetSize

/-- A request on the happy path: upload present, file readable, quality
checks pass, both models load and both forward passes succeed. -/
def envBothOk : RequestEnv :=
  { hasFile := true, fileExists := true, fileSize := 20000,
    imgWidth := 640, imgHeight := 640, modelsLoadOk := true,
    predict5 := .ok [6 / 10, 1 / 10], predict7 := .ok [7 / 10, 2 / 10],
    elapsedMs := 5 }

/-- A request where YOLOv5 answers (confidence 0.6 at index 2, "Late
Blight") but YOLOv7's forward pass rejects. -/
def envModelBFails : RequestEnv :=
  { hasFile := true, fileExists := true, fileSize := 20000,
    imgWidth := 640, imgHeight := 640, modelsLoadOk := true,
    predict5 := .ok [0, 0, 6 / 10], predict7 := .error "B failed to execute",
    elapsedMs := 5 }

/-- A request whose uploaded file is 2048 bytes, below the 10240-byte
quality minimum. -/
def envTooSmall : RequestEnv :=
  { hasFile := true, fileExists := true, fileSize := 2048,
    imgWidth := 640, imgHeight := 640, modelsLoadOk := true,
    predict5 := .ok [6 / 10], predict7 := .ok [7 / 10], elapsedMs := 5 }

/-- A request whose uploaded file vanished before `fs.access`: the 404
early-return path. -/
def envFileGone : RequestEnv :=
  { hasFile := true, fileExists := false, fileSize := 20000,
    imgWidth := 640, imgHeight := 640, modelsLoadOk := true,
    predict5 := .ok [6 / 10], predict7 := .ok [7 / 10], elapsedMs := 5 }

/-- A request on which obtaining the model instances throws: the
catch-all path before any tensor is created. -/
def envModelsDown : RequestEnv :=
  { hasFile := true, fileExists := true, fileSize := 20000,
    imgWidth := 640, imgHeight := 640, modelsLoadOk := false,
    predict5 := .ok [6 / 10], predict7 := .ok [7 / 10], elapsedMs := 5 }

/-- A request where YOLOv5's forward pass rejects while YOLOv7's
succeeds. -/
def envModelAFails : RequestEnv :=
  { hasFile := true, fileExists := true, fileSize := 20000,
    imgWidth := 640, imgHeight := 640, modelsLoadOk := true,
    predict5 := .error "A failed to execute", predict7 := .ok [0, 0, 6 / 10],
    elapsedMs := 5 }

/-- A request where both forward passes reject. -/
def envBothPredictFail : RequestEnv :=
  { hasFile := true, fileExists := true, fileSize := 20000,
    imgWidth := 640, imgHeight := 640, modelsLoadOk := true,
    predict5 := .error "A failed to execute",
    predict7 := .error "B failed to execute", elapsedMs := 5 }

/-- The `yolov5` entry of `MODEL_CONFIG`, spelled out. -/
def yoloCfg : ModelConfig :=
  { modelPath := "../models/yolov5/yolov5_model.json"
    warmupShape := [1, 640, 640, 3]
    timeout := 60000
    retryAttempts := 3
    retryDelay := 5000 }

/-- A load environment whose backing files are missing. -/
def envNoFiles : LoadEnv :=
  { filesExist := false, outcome := fun _ => .success }

/-- A load environment where every attempt exceeds the timeout. -/
def envAllTimeout : LoadEnv :=
  { filesExist := true, outcome := fun _ => .timeout }

/-- A load environment where attempt 1 fails and attempt 2 succeeds. -/
def envSecondTry : LoadEnv :=
  { filesExist := true,
    outcome := fun i => if i = 1 then .failure "socket hang up" else .success }

/-- A concrete 2×1 image with every channel value 200. -/
def testImage : RawImage :=
  { width := 2, height := 1, pixel := fun _ _ _ => ⟨200, by omega⟩ }

/-!
## Theorems
-/

/-- C1 counterexample: on an exact confidence tie (both models report
0.42) the controller's primary is YOLOv7's block — the ternary
`yolov5Confidence > yolov7Confidence ? … : …` falls to the else branch —
not the earliest-evaluated model (YOLOv5) the claim requires. -/
theorem confidence_tie_selects_yolov7 :
    (mkEnsemble [42 / 100] [42 / 100] 7).yolov5Analysis.confidence =
      (mkEnsemble [42 / 100] [42 / 100] 7).yolov7Analysis.confidence ∧
    (mkEnsemble [42 / 100] [42 / 100] 7).analysis.model = "YOLOv7" ∧
    "YOLOv7" ≠ "YOLOv5" := by
  refine ⟨?_, ?_, by decide⟩ <;>
    norm_num [mkEnsemble, analyzeOutput, classIndexOf, jsMax, valueAt]

/-- C1 (amended): for every pair of per-model prediction results the
primary is the one with strictly greater confidence, and on an exact
confidence tie the later-evaluated model's (YOLOv7's) result is
selected, deterministically every time. -/
theorem mkEnsemble_primary_selection (d5 d7 : List ℚ) (t : ℕ) :
    ((analyzeOutput d7).confidence < (analyzeOutput d5).confidence →
      (mkEnsemble d5 d7 t).analysis =
        { toModelAnalysis := analyzeOutput d5, model := "YOLOv5" }) ∧
    ((analyzeOutput d5).confidence < (analyzeOutput d7).confidence →
      (mkEnsemble d5 d7 t).analysis =
        { toModelAnalysis := analyzeOutput d7, model := "YOLOv7" }) ∧
    ((analyzeOutput d5).confidence = (analyzeOutput d7).confidence →
      (mkEnsemble d5 d7 t).analysis =
        { toModelAnalysis := analyzeOutput d7, model := "YOLOv7" }) := by
  refine ⟨fun h => ?_, fun h => ?_, fun h => ?_⟩
  · simp [mkEnsemble, if_pos h]
  · simp [mkEnsemble, if_neg (not_lt.mpr h.le)]
  · simp [mkEnsemble, if_neg (not_lt.mpr (le_of_eq h))]

/-- Witness for `mkEnsemble_primary_selection` at concrete outputs:
0.9 beats 0.2, 0.2 loses to 0.9, and a 0.42 tie goes to YOLOv7. -/
theorem mkEnsemble_primary_selection_witness :
    (mkEnsemble [9 / 10] [2 / 10] 3).analysis =
      { toModelAnalysis := analyzeOutput [9 / 10], model := "YOLOv5" } ∧
    (mkEnsemble [2 / 10] [9 / 10] 3).analysis =
      { toModelAnalysis := analyzeOutput [9 / 10], model := "YOLOv7" } ∧
    (mkEnsemble [42 / 100] [42 / 100] 3).analysis =
      { toModelAnalysis := analyzeOutput [42 / 100], model := "YOLOv7" } :=
  ⟨(mkEnsemble_primary_selection [9 / 10] [2 / 10] 3).1 (by
      norm_num [analyzeOutput, classIndexOf, jsMax, valueAt]),
   (mkEnsemble_primary_selection [2 / 10] [9 / 10] 3).2.1 (by
      norm_num [analyzeOutput, classIndexOf, jsMax, valueAt]),
   (mkEnsemble_primary_selection [42 / 100] [42 / 100] 3).2.2 (by
      norm_num [analyzeOutput, classIndexOf, jsMax, valueAt])⟩

/-- C8: the class-index → label mapping is total — an index inside the
fixed 9-entry table yields that entry's disease label (never
"Unknown"), and any index outside 0–8 yields "Unknown" instead of an
error. -/
theorem getDiseaseLabel_total (i : ℤ) :
    ((i < 0 ∨ 9 ≤ i) → getDiseaseLabel i = "Unknown") ∧
    (0 ≤ i → i < 9 →
      ∃ s, labelMap i = some s ∧ getDiseaseLabel i = s ∧ s ≠ "Unknown") := by
  constructor
  · rintro (h | h) <;>
      · unfold getDiseaseLabel labelMap
        split_ifs <;> first | rfl | omega
  · intro h0 h9
    interval_cases i <;> exact ⟨_, rfl, rfl, by decide⟩

/-- Witness for `getDiseaseLabel_total`: index 12 (outside the table)
maps to "Unknown"; index 3 maps to its table entry. -/
theorem getDiseaseLabel_total_witness :
    getDiseaseLabel 12 = "Unknown" ∧
    (∃ s, labelMap 3 = some s ∧ getDiseaseLabel 3 = s ∧ s ≠ "Unknown") :=
  ⟨(getDiseaseLabel_total 12).1 (Or.inr (by norm_num)),
   (getDiseaseLabel_total 3).2 (by norm_num) (by norm_num)⟩

/-- C10: when both forward passes succeed the response is the 200
ensemble result, it contains both per-model entries, the primary's
fields equal one of those two entries, and the primary's confidence is
the maximum of the two models' confidences. -/
theorem analyzeImage_both_models_ok (env : RequestEnv) (d5 d7 : List ℚ)
    (hf : env.hasFile = true) (he : env.fileExists = true)
    (hq : checkImageQuality env.fileSize env.imgWidth env.imgHeight
      (10 * 1024) 224 224 = .ok true)
    (hm : env.modelsLoadOk = true)
    (h5 : env.predict5 = .ok d5) (h7 : env.predict7 = .ok d7) :
    (analyzeImage env).1 = .ok 200 (mkEnsemble d5 d7 env.elapsedMs) ∧
    (mkEnsemble d5 d7 env.elapsedMs).yolov5Analysis = analyzeOutput d5 ∧
    (mkEnsemble d5 d7 env.elapsedMs).yolov7Analysis = analyzeOutput d7 ∧
    ((mkEnsemble d5 d7 env.elapsedMs).analysis.toModelAnalysis =
        (mkEnsemble d5 d7 env.elapsedMs).yolov5Analysis ∨
      (mkEnsemble d5 d7 env.elapsedMs).analysis.toModelAnalysis =
        (mkEnsemble d5 d7 env.elapsedMs).yolov7Analysis) ∧
    (mkEnsemble d5 d7 env.elapsedMs).analysis.confidence =
      max (mkEnsemble d5 d7 env.elapsedMs).yolov5Analysis.confidence
        (mkEnsemble d5 d7 env.elapsedMs).yolov7Analysis.confidence := by
  refine ⟨by simp [analyzeImage, hf, he, hq, hm, h5, h7], ?_⟩
  rcases lt_or_le (analyzeOutput d7).confidence (analyzeOutput d5).confidence
    with h | h
  · simp [mkEnsemble, if_pos h, max_eq_left h.le]
  · simp [mkEnsemble, if_neg (not_lt.mpr h), max_eq_right h]

/-- Witness for `analyzeImage_both_models_ok` at the concrete happy-path
request `envBothOk`. -/
theorem analyzeImage_both_models_ok_witness :
    (analyzeImage envBothOk).1 =
      .ok 200 (mkEnsemble [6 / 10, 1 / 10] [7 / 10, 2 / 10] 5) ∧
    (mkEnsemble [6 / 10, 1 / 10] [7 / 10, 2 / 10] 5).yolov5Analysis =
      analyzeOutput [6 / 10, 1 / 10] ∧
    (mkEnsemble [6 / 10, 1 / 10] [7 / 10, 2 / 10] 5).yolov7Analysis =
      analyzeOutput [7 / 10, 2 / 10] ∧
    ((mkEnsemble [6 / 10, 1 / 10] [7 / 10, 2 / 10] 5).analysis.toModelAnalysis =
        (mkEnsemble [6 / 10, 1 / 10] [7 / 10, 2 / 10] 5).yolov5Analysis ∨
      (mkEnsemble [6 / 10, 1 / 10] [7 / 10, 2 / 10] 5).analysis.toModelAnalysis =
        (mkEnsemble [6 / 10, 1 / 10] [7 / 10, 2 / 10] 5).yolov7Analysis) ∧
    (mkEnsemble [6 / 10, 1 / 10] [7 / 10, 2 / 10] 5).analysis.confidence =
      max (mkEnsemble [6 / 10, 1 / 10] [7 / 10, 2 / 10] 5).yolov5Analysis.confidence
        (mkEnsemble [6 / 10, 1 / 10] [7 / 10, 2 / 10] 5).yolov7Analysis.confidence :=
  analyzeImage_both_models_ok envBothOk [6 / 10, 1 / 10] [7 / 10, 2 / 10]
    rfl rfl rfl rfl rfl rfl

/-- C2 counterexample: in `envModelBFails` YOLOv5's forward pass
succeeds (confidence 0.6 at index 2) while YOLOv7's rejects, yet the
request does not return the healthy model's result — the
`Promise.all` rejection lands in the catch block and the whole request
fails with the single 500 "Error processing image" response. -/
theorem single_model_failure_aborts_request :
    envModelBFails.predict5 = .ok [0, 0, 6 / 10] ∧
    envModelBFails.predict7 = .error "B failed to execute" ∧
    (analyzeImage envModelBFails).1 = .fail 500 "Error processing image" :=
  ⟨rfl, rfl, rfl⟩

/-- C2 (amended): if at least one model's forward pass throws, the
whole request fails with the aggregate 500 "Error processing image"
response; there is no per-model error isolation, and per-model results
are returned only when both forward passes succeed. -/
theorem analyzeImage_any_model_failure_fails (env : RequestEnv)
    (hf : env.hasFile = true) (he : env.fileExists = true)
    (hq : checkImageQuality env.fileSize env.imgWidth env.imgHeight
      (10 * 1024) 224 224 = .ok true)
    (hm : env.modelsLoadOk = true)
    (hfail : (∃ m, env.predict5 = .error m) ∨
      (∃ m, env.predict7 = .error m)) :
    (analyzeImage env).1 = .fail 500 "Error processing image" := by
  rcases hfail with ⟨m, h5⟩ | ⟨m, h7⟩
  · rcases h7 : env.predict7 with m7 | d7 <;>
      simp [analyzeImage, hf, he, hq, hm, h5, h7]
  · rcases h5 : env.predict5 with m5 | d5 <;>
      simp [analyzeImage, hf, he, hq, hm, h5, h7]

/-- Witness for `analyzeImage_any_model_failure_fails` at the concrete
request `envModelBFails`. -/
theorem analyzeImage_any_model_failure_fails_witness :
    (analyzeImage envModelBFails).1 = .fail 500 "Error processing image" :=
  analyzeImage_any_model_failure_fails envModelBFails rfl rfl rfl rfl
    (Or.inr ⟨"B failed to execute", rfl⟩)

/-- C3 counterexample: request-scoped resources survive the request.
After the fully successful request `envBothOk` the input tensor and
both prediction tensors are still allocated (the
`tf.dispose([tensor, yolov5Prediction, yolov7Prediction])` call is
commented out), and on the quality-check early return of `envTooSmall`
the two registered temporary files are never passed to `cleanupFiles`. -/
theorem resources_retained_after_request :
    (analyzeImage envBothOk).2.tensorsAlive = 3 ∧
    (analyzeImage envTooSmall).2.filesRegistered = 2 ∧
    (analyzeImage envTooSmall).2.filesCleaned = 0 :=
  ⟨rfl, rfl, rfl⟩

/-- C3 (amended), covering every exit path of `analyzeImage` on an
uploaded file: the upload-not-found (404) and quality-check (400)
early returns release none of the two registered temporary files and
create no tensors; the catch-all error path — whether obtaining the
models throws or one or both forward passes reject — does pass the
registered files to `cleanupFiles`; and intermediate tensors are
released on no path at all: every tensor created on a path is still
alive at its exit (the commented-out `tf.dispose` would have removed
them), so a model-failure request keeps its input tensor (plus the
surviving prediction tensor, if any) and a fully successful request
keeps the input tensor and both prediction tensors. -/
theorem analyzeImage_cleanup_incomplete (env : RequestEnv)
    (hf : env.hasFile = true) :
    (env.fileExists = false →
      (analyzeImage env).2.filesRegistered = 2 ∧
      (analyzeImage env).2.filesCleaned = 0 ∧
      (analyzeImage env).2.tensorsAlive = 0) ∧
    (env.fileExists = true →
      (∃ m, checkImageQuality env.fileSize env.imgWidth env.imgHeight
        (10 * 1024) 224 224 = .error m) →
      (analyzeImage env).2.filesRegistered = 2 ∧
      (analyzeImage env).2.filesCleaned = 0 ∧
      (analyzeImage env).2.tensorsAlive = 0) ∧
    (env.fileExists = true →
      checkImageQuality env.fileSize env.imgWidth env.imgHeight
        (10 * 1024) 224 224 = .ok true →
      env.modelsLoadOk = false →
      (analyzeImage env).2.filesCleaned =
        (analyzeImage env).2.filesRegistered ∧
      (analyzeImage env).2.tensorsAlive = 0) ∧
    (env.fileExists = true →
      checkImageQuality env.fileSize env.imgWidth env.imgHeight
        (10 * 1024) 224 224 = .ok true →
      env.modelsLoadOk = true →
      (∃ d, env.predict5 = .ok d) → (∃ m, env.predict7 = .error m) →
      (analyzeImage env).2.filesCleaned =
        (analyzeImage env).2.filesRegistered ∧
      (analyzeImage env).2.tensorsAlive = 2) ∧
    (env.fileExists = true →
      checkImageQuality env.fileSize env.imgWidth env.imgHeight
        (10 * 1024) 224 224 = .ok true →
      env.modelsLoadOk = true →
      (∃ m, env.predict5 = .error m) → (∃ d, env.predict7 = .ok d) →
      (analyzeImage env).2.filesCleaned =
        (analyzeImage env).2.filesRegistered ∧
      (analyzeImage env).2.tensorsAlive = 2) ∧
    (env.fileExists = true →
      checkImageQuality env.fileSize env.imgWidth env.imgHeight
        (10 * 1024) 224 224 = .ok true →
      env.modelsLoadOk = true →
      (∃ m, env.predict5 = .error m) → (∃ m, env.predict7 = .error m) →
      (analyzeImage env).2.filesCleaned =
        (analyzeImage env).2.filesRegistered ∧
      (analyzeImage env).2.tensorsAlive = 1) ∧
    (env.fileExists = true →
      checkImageQuality env.fileSize env.imgWidth env.imgHeight
        (10 * 1024) 224 224 = .ok true →
      env.modelsLoadOk = true →
      (∃ d, env.predict5 = .ok d) → (∃ d, env.predict7 = .ok d) →
      (analyzeImage env).2.filesCleaned =
        (analyzeImage env).2.filesRegistered ∧
      (analyzeImage env).2.tensorsAlive = 3) := by
  refine ⟨?_, ?_, ?_, ?_, ?_, ?_, ?_⟩
  · intro he
    refine ⟨?_, ?_, ?_⟩ <;> simp [analyzeImage, hf, he]
  · rintro he ⟨m, hqe⟩
    refine ⟨?_, ?_, ?_⟩ <;> simp [analyzeImage, hf, he, hqe]
  · rintro he hq hm
    constructor <;> simp [analyzeImage, hf, he, hq, hm]
  · rintro he hq hm ⟨d5, h5⟩ ⟨m7, h7⟩
    constructor <;> simp [analyzeImage, hf, he, hq, hm, h5, h7]
  · rintro he hq hm ⟨m5, h5⟩ ⟨d7, h7⟩
    constructor <;> simp [analyzeImage, hf, he, hq, hm, h5, h7]
  · rintro he hq hm ⟨m5, h5⟩ ⟨m7, h7⟩
    constructor <;> simp [analyzeImage, hf, he, hq, hm, h5, h7]
  · rintro he hq hm ⟨d5, h5⟩ ⟨d7, h7⟩
    constructor <;> simp [analyzeImage, hf, he, hq, hm, h5, h7]

/-- Witness for `analyzeImage_cleanup_incomplete`, exercising every
clause: the vanished-upload request `envFileGone` and the
quality-failure request `envTooSmall` clean nothing; the model-failure
request `envModelsDown` cleans its files before any tensor exists; the
predict-failure requests `envModelBFails`, `envModelAFails` and
`envBothPredictFail` clean their files but keep 2, 2 and 1 tensors
alive; the successful request `envBothOk` cleans its files but keeps
all three tensors alive. -/
theorem analyzeImage_cleanup_incomplete_witness :
    ((analyzeImage envFileGone).2.filesRegistered = 2 ∧
      (analyzeImage envFileGone).2.filesCleaned = 0 ∧
      (analyzeImage envFileGone).2.tensorsAlive = 0) ∧
    ((analyzeImage envTooSmall).2.filesRegistered = 2 ∧
      (analyzeImage envTooSmall).2.filesCleaned = 0 ∧
      (analyzeImage envTooSmall).2.tensorsAlive = 0) ∧
    ((analyzeImage envModelsDown).2.filesCleaned =
        (analyzeImage envModelsDown).2.filesRegistered ∧
      (analyzeImage envModelsDown).2.tensorsAlive = 0) ∧
    ((analyzeImage envModelBFails).2.filesCleaned =
        (analyzeImage envModelBFails).2.filesRegistered ∧
      (analyzeImage envModelBFails).2.tensorsAlive = 2) ∧
    ((analyzeImage envModelAFails).2.filesCleaned =
        (analyzeImage envModelAFails).2.filesRegistered ∧
      (analyzeImage envModelAFails).2.tensorsAlive = 2) ∧
    ((analyzeImage envBothPredictFail).2.filesCleaned =
        (analyzeImage envBothPredictFail).2.filesRegistered ∧
      (analyzeImage envBothPredictFail).2.tensorsAlive = 1) ∧
    ((analyzeImage envBothOk).2.filesCleaned =
        (analyzeImage envBothOk).2.filesRegistered ∧
      (analyzeImage envBothOk).2.tensorsAlive = 3) :=
  ⟨(analyzeImage_cleanup_incomplete envFileGone rfl).1 rfl,
   (analyzeImage_cleanup_incomplete envTooSmall rfl).2.1 rfl ⟨_, rfl⟩,
   (analyzeImage_cleanup_incomplete envModelsDown rfl).2.2.1 rfl rfl rfl,
   (analyzeImage_cleanup_incomplete envModelBFails rfl).2.2.2.1 rfl rfl rfl
     ⟨_, rfl⟩ ⟨_, rfl⟩,
   (analyzeImage_cleanup_incomplete envModelAFails rfl).2.2.2.2.1 rfl rfl rfl
     ⟨_, rfl⟩ ⟨_, rfl⟩,
   (analyzeImage_cleanup_incomplete envBothPredictFail rfl).2.2.2.2.2.1
     rfl rfl rfl ⟨_, rfl⟩ ⟨_, rfl⟩,
   (analyzeImage_cleanup_incomplete envBothOk rfl).2.2.2.2.2.2 rfl rfl rfl
     ⟨_, rfl⟩ ⟨_, rfl⟩⟩

/-- C9: an upload below 10240 bytes, or with decoded width or height
below 224, is rejected with the 400 "Image quality check failed"
response before any model is obtained and before any inference runs. -/
theorem quality_gate_blocks_models (env : RequestEnv)
    (hf : env.hasFile = true) (he : env.fileExists = true)
    (h : env.fileSize < 10240 ∨ env.imgWidth < 224 ∨ env.imgHeight < 224) :
    (analyzeImage env).1 = .fail 400 "Image quality check failed" ∧
    (analyzeImage env).2.modelsRequested = false ∧
    (analyzeImage env).2.inferenceStarted = false := by
  have hq : ∃ m, checkImageQuality env.fileSize env.imgWidth env.imgHeight
      (10 * 1024) 224 224 = .error m := by
    unfold checkImageQuality
    by_cases h1 : env.fileSize < 10 * 1024
    · exact ⟨_, by rw [if_pos h1]⟩
    · have h2 : env.imgWidth < 224 ∨ env.imgHeight < 224 := by
        rcases h with h | h | h
        · omega
        · exact Or.inl h
        · exact Or.inr h
      exact ⟨_, by rw [if_neg h1, if_pos h2]⟩
  obtain ⟨m, hqe⟩ := hq
  refine ⟨?_, ?_, ?_⟩ <;> simp [analyzeImage, hf, he, hqe]

/-- Witness for `quality_gate_blocks_models` at the 2048-byte upload
`envTooSmall`. -/
theorem quality_gate_blocks_models_witness :
    (analyzeImage envTooSmall).1 = .fail 400 "Image quality check failed" ∧
    (analyzeImage envTooSmall).2.modelsRequested = false ∧
    (analyzeImage envTooSmall).2.inferenceStarted = false :=
  quality_gate_blocks_models envTooSmall rfl rfl
    (Or.inl (by norm_num [envTooSmall]))

/-- C6: with a missing backing file, `get(modelName)` on an uncached
model fails with the `checkModelFiles` error, performing zero load
attempts and zero retry-delay waits. -/
theorem getModel_files_missing_fails_fast (name : String)
    (cfg : ModelConfig) (env : LoadEnv)
    (hc : MODEL_CONFIG name = some cfg) (hmiss : env.filesExist = false) :
    getModel name false env = ⟨0, 0, .error (filesMissingMsg name)⟩ := by
  simp [getModel, hc, loadModelWithRetry, hmiss]

/-- Witness for `getModel_files_missing_fails_fast` at model "yolov5"
with absent files. -/
theorem getModel_files_missing_fails_fast_witness :
    getModel "yolov5" false envNoFiles =
      ⟨0, 0, .error (filesMissingMsg "yolov5")⟩ :=
  getModel_files_missing_fails_fast "yolov5" yoloCfg envNoFiles rfl rfl

/-- Both configured models have `retryAttempts` 3. -/
theorem cfg_retry_attempts (name : String) (cfg : ModelConfig)
    (hc : MODEL_CONFIG name = some cfg) : cfg.retryAttempts = 3 := by
  unfold MODEL_CONFIG at hc
  split_ifs at hc <;> cases hc <;> rfl

/-- The attempts started by the retry loop never exceed the fuel it was
given plus those already counted. -/
theorem retryLoop_attempts_le (name : String) (cfg : ModelConfig)
    (o : ℕ → AttemptOutcome) :
    ∀ fuel idx aDone dDone lastErr,
      (retryLoop name cfg o fuel idx aDone dDone lastErr).attempts ≤
        aDone + fuel := by
  intro fuel
  induction fuel with
  | zero => intro idx aDone dDone lastErr; simp [retryLoop]
  | succ n ih =>
    intro idx aDone dDone lastErr
    cases heq : attemptError cfg (o idx) with
    | none => simp [retryLoop, heq]
    | some e =>
      by_cases hn : n = 0
      · subst hn; simp [retryLoop, heq]
      · simp only [retryLoop, heq, if_neg hn]
        calc (retryLoop name cfg o n (idx + 1) (aDone + 1) (dDone + 1)
                e).attempts
            ≤ (aDone + 1) + n := ih (idx + 1) (aDone + 1) (dDone + 1) e
          _ = aDone + (n + 1) := by omega

/-- When every attempt the loop has fuel for fails, the loop runs all
of them, waits between consecutive attempts only, and aggregates the
last error. -/
theorem retryLoop_all_fail (name : String) (cfg : ModelConfig)
    (o : ℕ → AttemptOutcome) :
    ∀ fuel idx aDone dDone lastErr, 1 ≤ fuel →
      (∀ j, j < fuel → attemptError cfg (o (idx + j)) ≠ none) →
      retryLoop name cfg o fuel idx aDone dDone lastErr =
        ⟨aDone + fuel, dDone + (fuel - 1),
         .error (aggregateMsg name cfg
           ((attemptError cfg (o (idx + fuel - 1))).getD ""))⟩ := by
  intro fuel
  induction fuel with
  | zero => intro idx aDone dDone lastErr h; omega
  | succ n ih =>
    intro idx aDone dDone lastErr _ hfail
    have h0 := hfail 0 (by omega)
    rw [Nat.add_zero] at h0
    cases heq : attemptError cfg (o idx) with
    | none => exact absurd heq h0
    | some e =>
      by_cases hn : n = 0
      · subst hn
        simp [retryLoop, heq]
      · have h1 : 1 ≤ n := by omega
        have hfail' : ∀ j, j < n →
            attemptError cfg (o (idx + 1 + j)) ≠ none := by
          intro j hj
          have := hfail (j + 1) (by omega)
          rwa [show idx + (j + 1) = idx + 1 + j by omega] at this
        simp only [retryLoop, heq, if_neg hn]
        rw [ih (idx + 1) (aDone + 1) (dDone + 1) e h1 hfail']
        have e1 : idx + 1 + n - 1 = idx + (n + 1) - 1 := by omega
        have e2 : aDone + 1 + n = aDone + (n + 1) := by omega
        have e3 : dDone + 1 + (n - 1) = dDone + (n + 1 - 1) := by omega
        rw [e1, e2, e3]

/-- When the zero-based k-th attempt succeeds after k failures, the
loop stops there: k+1 attempts, k delay waits, success. -/
theorem retryLoop_success_at (name : String) (cfg : ModelConfig)
    (o : ℕ → AttemptOutcome) :
    ∀ k fuel idx aDone dDone lastErr, k < fuel →
      (∀ j, j < k → attemptError cfg (o (idx + j)) ≠ none) →
      attemptError cfg (o (idx + k)) = none →
      retryLoop name cfg o fuel idx aDone dDone lastErr =
        ⟨aDone + k + 1, dDone + k, .ok ()⟩ := by
  intro k
  induction k with
  | zero =>
    intro fuel idx aDone dDone lastErr hk _ hok
    rw [Nat.add_zero] at hok
    cases fuel with
    | zero => omega
    | succ n => simp [retryLoop, hok]
  | succ m ih =>
    intro fuel idx aDone dDone lastErr hk hfail hok
    cases fuel with
    | zero => omega
    | succ n =>
      have h0 := hfail 0 (by omega)
      rw [Nat.add_zero] at h0
      cases heq : attemptError cfg (o idx) with
      | none => exact absurd heq h0
      | some e =>
        have hn : n ≠ 0 := by omega
        have hfail' : ∀ j, j < m →
            attemptError cfg (o (idx + 1 + j)) ≠ none := by
          intro j hj
          have := hfail (j + 1) (by omega)
          rwa [show idx + (j + 1) = idx + 1 + j by omega] at this
        have hok' : attemptError cfg (o (idx + 1 + m)) = none := by
          rwa [show idx + (m + 1) = idx + 1 + m by omega] at hok
        simp only [retryLoop, heq, if_neg hn]
        rw [ih n (idx + 1) (aDone + 1) (dDone + 1) e (by omega) hfail' hok']
        have e2 : aDone + 1 + m + 1 = aDone + (m + 1) + 1 := by omega
        have e3 : dDone + 1 + m = dDone + (m + 1) := by omega
        rw [e2, e3]

/-- C7: with files present, loading attempts at most `retryAttempts`
times; a timed-out attempt carries the timeout message and counts as a
failed attempt; the loop waits `retryDelay` only between consecutive
attempts (attempts − 1 waits); after all attempts fail exactly one
aggregated error is raised, naming the model and carrying the last
underlying error's message; a success at attempt k stops after k
attempts and k − 1 waits. -/
theorem loadModelWithRetry_policy (name : String) (cfg : ModelConfig)
    (env : LoadEnv) (hc : MODEL_CONFIG name = some cfg)
    (hfiles : env.filesExist = true) :
    (loadModelWithRetry name env).attempts ≤ cfg.retryAttempts ∧
    attemptError cfg .timeout =
      some ("Model loading timed out after " ++ toString cfg.timeout ++
        "ms") ∧
    ((∀ i, 1 ≤ i → i ≤ cfg.retryAttempts →
        attemptError cfg (env.outcome i) ≠ none) →
      loadModelWithRetry name env =
        ⟨cfg.retryAttempts, cfg.retryAttempts - 1,
         .error (aggregateMsg name cfg
           ((attemptError cfg (env.outcome cfg.retryAttempts)).getD ""))⟩) ∧
    (∀ k, 1 ≤ k → k ≤ cfg.retryAttempts →
      (∀ i, 1 ≤ i → i < k → attemptError cfg (env.outcome i) ≠ none) →
      attemptError cfg (env.outcome k) = none →
      loadModelWithRetry name env = ⟨k, k - 1, .ok ()⟩) := by
  have hrun : loadModelWithRetry name env =
      retryLoop name cfg env.outcome cfg.retryAttempts 1 0 0 "" := by
    simp [loadModelWithRetry, hc, hfiles]
  have h3 := cfg_retry_attempts name cfg hc
  refine ⟨?_, rfl, ?_, ?_⟩
  · rw [hrun]
    have := retryLoop_attempts_le name cfg env.outcome cfg.retryAttempts
      1 0 0 ""
    omega
  · intro hall
    rw [hrun]
    have hfail : ∀ j, j < cfg.retryAttempts →
        attemptError cfg (env.outcome (1 + j)) ≠ none := by
      intro j hj
      exact hall (1 + j) (by omega) (by omega)
    rw [retryLoop_all_fail name cfg env.outcome cfg.retryAttempts 1 0 0 ""
      (by omega) hfail]
    have e1 : 1 + cfg.retryAttempts - 1 = cfg.retryAttempts := by omega
    rw [e1]
    simp
  · intro k hk1 hk2 hbefore hsucc
    rw [hrun]
    have hfail : ∀ j, j < k - 1 →
        attemptError cfg (env.outcome (1 + j)) ≠ none := by
      intro j hj
      exact hbefore (1 + j) (by omega) (by omega)
    have hok : attemptError cfg (env.outcome (1 + (k - 1))) = none := by
      rwa [show 1 + (k - 1) = k by omega]
    rw [retryLoop_success_at name cfg env.outcome (k - 1) cfg.retryAttempts
      1 0 0 "" (by omega) hfail hok]
    have e2 : 0 + (k - 1) + 1 = k := by omega
    have e3 : (0 : ℕ) + (k - 1) = k - 1 := by omega
    rw [e2, e3]

/-- Witness for `loadModelWithRetry_policy`: all three attempts timing
out yields 3 attempts, 2 waits and the aggregate error carrying the
timeout message; a failure followed by a success yields 2 attempts and
1 wait. -/
theorem loadModelWithRetry_policy_witness :
    loadModelWithRetry "yolov5" envAllTimeout =
      ⟨3, 2, .error (aggregateMsg "yolov5" yoloCfg
        "Model loading timed out after 60000ms")⟩ ∧
    loadModelWithRetry "yolov5" envSecondTry = ⟨2, 1, .ok ()⟩ :=
  ⟨(loadModelWithRetry_policy "yolov5" yoloCfg envAllTimeout rfl rfl).2.2.1
      (by intro i h1 h2; simp [envAllTimeout, attemptError]),
   (loadModelWithRetry_policy "yolov5" yoloCfg envSecondTry rfl rfl).2.2.2
      2 (by omega) (by norm_num [yoloCfg])
      (by intro i h1 h2
          have hi : i = 1 := by omega
          subst hi
          simp [envSecondTry, attemptError])
      (by simp [envSecondTry, attemptError])⟩

/-- C4 counterexample: two concurrent callers of `getModel` on an
uncached model, both running their synchronous `modelCache.has` check
before either load completes, start two underlying loads — not one.
Both callers complete, so this is a completed interleaving of exactly
the claim's scenario with a load count of 2. -/
theorem concurrent_getModel_duplicates_load :
    (regRun 2 [.check, .check, .finishLoad, .finishLoad]).loads = 2 ∧
    (regRun 2 [.check, .check, .finishLoad, .finishLoad]).nDone = 2 ∧
    (2 : ℕ) ≠ 1 :=
  ⟨rfl, rfl, by decide⟩

/-- Folding `k` cache-check steps from an uncached state: every one of
them misses and starts its own load. -/
theorem regRun_checks :
    ∀ (k : ℕ) (s : RegState), s.cached = false → k ≤ s.nStart →
      List.foldl regStep s (List.replicate k .check) =
        ⟨false, s.loads + k, s.nStart - k, s.nLoading + k, s.nDone⟩ := by
  intro k
  induction k with
  | zero =>
    intro s hc hk
    cases s
    simp_all
  | succ m ih =>
    intro s hc hk
    have hns : s.nStart ≠ 0 := by omega
    rw [List.replicate_succ, List.foldl_cons]
    have hstep : regStep s .check =
        ⟨false, s.loads + 1, s.nStart - 1, s.nLoading + 1, s.nDone⟩ := by
      cases s
      simp_all [regStep]
    rw [hstep, ih _ rfl (by simp; omega)]
    simp only [RegState.mk.injEq, true_and, and_true]
    omega

/-- Folding `k ≥ 1` load-completion steps: each finishes one awaiting
caller and the cache ends populated; no new load is started. -/
theorem regRun_finishes :
    ∀ (k : ℕ) (s : RegState), 1 ≤ k → k ≤ s.nLoading →
      List.foldl regStep s (List.replicate k .finishLoad) =
        ⟨true, s.loads, s.nStart, s.nLoading - k, s.nDone + k⟩ := by
  intro k
  induction k with
  | zero => intro s h1 _; omega
  | succ m ih =>
    intro s _ hk
    have hnl : s.nLoading ≠ 0 := by omega
    rw [List.replicate_succ, List.foldl_cons]
    have hstep : regStep s .finishLoad =
        ⟨true, s.loads, s.nStart, s.nLoading - 1, s.nDone + 1⟩ := by
      cases s
      simp_all [regStep]
    rw [hstep]
    by_cases hm : m = 0
    · subst hm
      simp only [List.replicate_zero, List.foldl_nil]
    · rw [ih _ (by omega) (by simp; omega)]
      simp only [RegState.mk.injEq, true_and, and_true]
      omega

/-- C4 (amended): `getModel` has no in-flight single-flight table —
the cache deduplicates only after a load completes. In the
interleaving where all `n` concurrent callers run their cache check
before any load completes, exactly `n` underlying loads are performed
(one per caller) and all callers complete; a caller whose check runs
after the cache is populated starts no load. -/
theorem getModel_one_load_per_early_caller (n : ℕ) :
    (regRun n (List.replicate n .check ++
      List.replicate n .finishLoad)).loads = n ∧
    (regRun n (List.replicate n .check ++
      List.replicate n .finishLoad)).nDone = n ∧
    ∀ s : RegState, s.cached = true → (regStep s .check).loads = s.loads := by
  have hrun : regRun n (List.replicate n .check ++ List.replicate n .finishLoad)
      = List.foldl regStep
          (List.foldl regStep (regInit n) (List.replicate n .check))
          (List.replicate n .finishLoad) := by
    simp [regRun, List.foldl_append]
  have hchecks := regRun_checks n (regInit n) rfl (by simp [regInit])
  refine ⟨?_, ?_, ?_⟩
  · rw [hrun, hchecks]
    by_cases hn : n = 0
    · subst hn; simp [regInit]
    · rw [regRun_finishes n _ (by omega) (by simp [regInit])]
      simp [regInit]
  · rw [hrun, hchecks]
    by_cases hn : n = 0
    · subst hn; simp [regInit]
    · rw [regRun_finishes n _ (by omega) (by simp [regInit])]
      simp [regInit]
  · intro s hc
    cases s
    simp_all [regStep]
    split_ifs <;> simp

/-- Witness for `getModel_one_load_per_early_caller` at `n = 3`
and at a concrete already-cached state. -/
theorem getModel_one_load_per_early_caller_witness :
    (regRun 3 (List.replicate 3 .check ++
      List.replicate 3 .finishLoad)).loads = 3 ∧
    (regStep ⟨true, 5, 1, 0, 0⟩ .check).loads = 5 :=
  ⟨(getModel_one_load_per_early_caller 3).1,
   (getModel_one_load_per_early_caller 3).2.2 ⟨true, 5, 1, 0, 0⟩ rfl⟩

/-- A scaled dimension `a * t / b` with `a ≤ b` never exceeds the
target `t`. -/
theorem scaled_le (a b t : ℕ) (hab : a ≤ b) : a * t / b ≤ t :=
  Nat.div_le_of_le_mul (Nat.mul_le_mul_right t hab)

/-- C5: for every decoded image and target size, `processImageBuffer`
returns a tensor of shape `(1, targetSize, targetSize, 3)` — with the
default target size 640 when no options are passed — every value of
the tensor lies in [0, 1], the contain fit is aspect-preserving (the
scaled region fits inside the square canvas), and every pixel outside
the scaled region is black (0). -/
theorem processImageBuffer_spec (img : RawImage) (t : ℕ) :
    (processImageBuffer img t).shape = [1, t, t, 3] ∧
    (processImageBufferDefault img).shape = [1, 640, 640, 3] ∧
    (∀ b y x c, 0 ≤ (processImageBuffer img t).value b y x c ∧
      (processImageBuffer img t).value b y x c ≤ 1) ∧
    (scaledDims img.width img.height t).1 ≤ t ∧
    (scaledDims img.width img.height t).2 ≤ t ∧
    (∀ y x c,
      ¬((t - (scaledDims img.width img.height t).1) / 2 ≤ x ∧
        x < (t - (scaledDims img.width img.height t).1) / 2 +
          (scaledDims img.width img.height t).1 ∧
        (t - (scaledDims img.width img.height t).2) / 2 ≤ y ∧
        y < (t - (scaledDims img.width img.height t).2) / 2 +
          (scaledDims img.width img.height t).2) →
      (containFit img t).pixel y x c = 0) := by
  have hdims : (scaledDims img.width img.height t).1 ≤ t ∧
      (scaledDims img.width img.height t).2 ≤ t := by
    unfold scaledDims
    split_ifs with h
    · exact ⟨le_refl t, scaled_le _ _ _ h⟩
    · exact ⟨scaled_le _ _ _ (by omega), le_refl t⟩
  refine ⟨rfl, rfl, ?_, hdims.1, hdims.2, ?_⟩
  · intro b y x c
    simp only [processImageBuffer]
    by_cases hc : c < 3
    · rw [dif_pos hc]
      constructor
      · positivity
      · rw [div_le_one (by norm_num)]
        have hle : ((containFit img t).pixel y x ⟨c, hc⟩ : ℕ) ≤ 255 :=
          Nat.lt_succ_iff.mp (Fin.is_lt _)
        exact_mod_cast hle
    · rw [dif_neg hc]
      norm_num
  · intro y x c h
    simp only [containFit]
    rw [if_neg h]

/-- Witness for `processImageBuffer_spec` on the concrete 2×1 image:
default shape, a value inside [0, 1], and a black padding pixel above
the centred scaled region. -/
theorem processImageBuffer_spec_witness :
    (processImageBuffer testImage 640).shape = [1, 640, 640, 3] ∧
    (0 ≤ (processImageBuffer testImage 640).value 0 10 10 0 ∧
      (processImageBuffer testImage 640).value 0 10 10 0 ≤ 1) ∧
    (containFit testImage 640).pixel 0 5 0 = 0 :=
  ⟨(processImageBuffer_spec testImage 640).1,
   (processImageBuffer_spec testImage 640).2.2.1 0 10 10 0,
   (processImageBuffer_spec testImage 640).2.2.2.2.2 0 5 0 (by decide)⟩

end Sentinel
